import Mathlib

/-!
Verification of the background data-refresh pipeline of the stock-screener
repository: the Job Orchestrator (`backend/api/job_manager.py`), the
Incremental Sync Engine (`backend/scripts/incremental_fetch.py` plus the
schema in `backend/data/init_database.py`) and the Indicator Engine
(`backend/scripts/process_indicators.py`).

The embedding is shallow: the persisted JSON job state becomes a structure,
file persistence becomes explicit state passing, the external market-data
provider and the external `talib` indicator library become function
parameters, and dates become integer day numbers (ISO `YYYY-MM-DD` strings
compare lexicographically exactly as their day numbers compare, so SQL
`MAX(date)` is `max` on integers).
-/

/-! ## Job Orchestrator (`backend/api/job_manager.py`) -/

/-- The `progress` sub-dictionary of the persisted job state. -/
structure Progress where
  current_phase : Option String
  message : String
deriving DecidableEq

/-- The persisted job state dictionary written to `refresh_job_state.json`.
Timestamps are kept as the ISO strings the code stores. -/
structure JobState where
  status : String
  phase : Option String
  started_at : Option String
  completed_at : Option String
  last_successful_refresh : Option String
  error : Option String
  progress : Progress
deriving DecidableEq

/-- The state `_ensure_state_file` writes when no state file exists yet. -/
def initialIdleState : JobState :=
  { status := "idle"
    phase := none
    started_at := none
    completed_at := none
    last_successful_refresh := none
    error := none
    progress := { current_phase := none, message := "No refresh in progress" } }

/-- The membership test `status in ['fetching', 'processing']` used both by
`is_running` and inline by `start_refresh`. -/
def isRunningStatus (status : String) : Bool :=
  status == "fetching" || status == "processing"

/-- Result dictionary returned by `start_refresh`: `success`, `message`, and
the `status` key echoing a job-state dictionary. -/
structure StartResult where
  success : Bool
  message : String
  status : JobState
deriving DecidableEq

/-- `DataRefreshJobManager.start_refresh`, as a function from the persisted
state (and the current time `now`) to the returned result together with the
state left on disk.  If the loaded status is `fetching` or `processing` it
returns a failure and saves nothing; otherwise it persists the fresh
`fetching` state and reports success (the background thread it launches is
modelled separately by `run_refresh_job`). -/
def start_refresh (now : String) (s : JobState) : StartResult × JobState :=
  if isRunningStatus s.status then
    ({ success := false
       message := "A refresh job is already running"
       status := s }, s)
  else
    let fresh : JobState :=
      { status := "fetching"
        phase := some "fetch"
        started_at := some now
        completed_at := none
        last_successful_refresh := none
        error := none
        progress :=
          { current_phase := some "Fetching stock data from NASDAQ"
            message := "Incrementally updating data for S&P 500 stocks..." } }
    ({ success := true
       message := "Data refresh job started"
       status := fresh }, fresh)

/-- Python `str.capitalize()`: first character upper-cased, the rest
lower-cased (used for `progress.current_phase`). -/
def pyCapitalize (s : String) : String :=
  match s.data with
  | [] => ""
  | c :: cs => String.mk (c.toUpper :: cs.map Char.toLower)

/-- `DataRefreshJobManager._update_progress`: loads the state, overwrites
`status`, `phase` and `progress`, and saves it. -/
def update_progress (status message : String) (s : JobState) : JobState :=
  { s with
      status := status
      phase := some status
      progress := { current_phase := some (pyCapitalize status), message := message } }

/-- `DataRefreshJobManager._mark_failed`: loads the state, sets `status` and
`phase` to `failed`, stamps `completed_at`, records the error message, and
saves it. -/
def mark_failed (now error_message : String) (s : JobState) : JobState :=
  { s with
      status := "failed"
      phase := some "failed"
      completed_at := some now
      error := some error_message
      progress := { current_phase := some "Failed", message := error_message } }

/-- Outcome of one `subprocess.run(..., timeout=900)` call: either the
process finished with an exit code and captured stderr, or the 15-minute
wall-clock timeout expired (`subprocess.TimeoutExpired`). -/
inductive StageOutcome where
  | completedWith (returncode : Int) (stderr : String)
  | timedOut
deriving DecidableEq

/-- Python string interpolation of an `Option String` field (`None` prints
as `"None"`), used by the timeout error message. -/
def pyShowPhase : Option String → String
  | some p => p
  | none => "None"

/-- A stage outcome on which `_run_refresh_job` raises: a timeout or a
non-zero exit code. -/
def stageFailed : StageOutcome → Bool
  | .completedWith rc _ => rc != 0
  | .timedOut => true

/-- `DataRefreshJobManager._run_refresh_job`, the background worker: runs
the fetch script, then on success the process script, mutating the
persisted state (first component of the result).  The second component
records whether the indicator (process) stage was ever launched.  The
subprocess invocations are parameters `fetch` and `process`. -/
def run_refresh_job (now : String) (fetch process : StageOutcome) (s : JobState) :
    JobState × Bool :=
  let s1 := update_progress "fetching"
    "Fetching new stock data from NASDAQ API (incremental)..." s
  match fetch with
  | .timedOut =>
      (mark_failed now ("Job timed out during " ++ pyShowPhase s1.phase ++ " phase") s1, false)
  | .completedWith rc stderr =>
      if rc != 0 then
        (mark_failed now ("Fetch failed: " ++ stderr) s1, false)
      else
        let s2 := update_progress "processing"
          "Processing data and calculating technical indicators..." s1
        match process with
        | .timedOut =>
            (mark_failed now ("Job timed out during " ++ pyShowPhase s2.phase ++ " phase") s2, true)
        | .completedWith rc2 stderr2 =>
            if rc2 != 0 then
              (mark_failed now ("Processing failed: " ++ stderr2) s2, true)
            else
              ({ status := "completed"
                 phase := some "completed"
                 started_at := s2.started_at
                 completed_at := some now
                 last_successful_refresh := some now
                 error := none
                 progress :=
                   { current_phase := some "Completed"
                     message := "Data refresh completed successfully" } }, true)

/-- `DataRefreshJobManager.get_status` takes `self.lock` (a non-reentrant
`threading.Lock`) and reads the persisted state.  The embedding threads the
lock explicitly: acquiring it while the calling thread already holds it
blocks forever, modelled as `none`. -/
def get_status (lockHeld : Bool) (s : JobState) : Option JobState :=
  if lockHeld then none else some s

/-- `DataRefreshJobManager.is_running`: calls `get_status` (which acquires
the lock) and tests the status. -/
def is_running (lockHeld : Bool) (s : JobState) : Option Bool :=
  (get_status lockHeld s).map (fun st => isRunningStatus st.status)

/-- Result dictionary returned by `reset_to_idle`. -/
structure ResetResult where
  success : Bool
  message : String
deriving DecidableEq

/-- `DataRefreshJobManager.reset_to_idle`: enters `with self.lock:` (so the
non-reentrant lock is held for the body) and then calls `self.is_running()`,
which re-acquires that same lock.  `none` means the call never returns.  The
remaining branches transcribe the source body that would run after the
`is_running` test. -/
def reset_to_idle (s : JobState) : Option (ResetResult × JobState) :=
  match is_running true s with
  | none => none
  | some running =>
      if running then
        some ({ success := false, message := "Cannot reset while job is running" }, s)
      else
        let new_state : JobState :=
          { status := "idle"
            phase := none
            started_at := none
            completed_at := none
            last_successful_refresh := s.last_successful_refresh
            error := none
            progress := { current_phase := none, message := "No refresh in progress" } }
        some ({ success := true, message := "Job status reset to idle" }, new_state)

/-! ## Incremental Sync Engine (`backend/scripts/incremental_fetch.py`)

Dates are integer day numbers; the database stores them as `YYYY-MM-DD`
text, on which SQL `MAX` (lexicographic) agrees with integer `max`.
`datetime.now()` is a day number `today` plus a time-of-day fraction
`0 ≤ f < 1`; `(now - start).days` floors the difference, which for the
midnight-stamped `start` used here is exactly `today - start`.
Prices (`REAL` columns) are modelled as exact rationals: the engine never
computes with them, it only moves them between provider and store. -/

/-- One row of the `historical_prices` table (`init_database.py` lines
37-52).  The OHLCV columns are nullable; `UNIQUE(symbol, date)` is the
upsert key. -/
structure PriceRow where
  symbol : String
  date : Int
  open_ : Option Rat
  high : Option Rat
  low : Option Rat
  close : Option Rat
  volume : Option Int
  dividends : Rat
  stock_splits : Rat
deriving DecidableEq

/-- One row of the data frame built by `fetch_nasdaq_incremental` from the
provider payload: all fields present, `Dividends` and `Stock Splits`
filled with `0.0` by the fetcher. -/
structure FetchRow where
  date : Int
  open_ : Rat
  high : Rat
  low : Rat
  close : Rat
  volume : Int
deriving DecidableEq

/-- The row the `INSERT OR REPLACE` statement in `insert_historical_data`
writes for symbol `symbol` from data-frame row `r`. -/
def toPriceRow (symbol : String) (r : FetchRow) : PriceRow :=
  { symbol := symbol
    date := r.date
    open_ := some r.open_
    high := some r.high
    low := some r.low
    close := some r.close
    volume := some r.volume
    dividends := 0
    stock_splits := 0 }

/-- The `(symbol, date)` key of a stored row. -/
def keyOf (r : PriceRow) : String × Int := (r.symbol, r.date)

/-- The `UNIQUE(symbol, date)` constraint of `historical_prices`: no two
rows share a key. -/
def NoDupKeys (store : List PriceRow) : Prop :=
  (store.map keyOf).Nodup

instance (store : List PriceRow) : Decidable (NoDupKeys store) :=
  List.nodupDecidable _

/-- SQLite `INSERT OR REPLACE` against `UNIQUE(symbol, date)`: any existing
row with the same key is deleted and the new row inserted. -/
def upsertRow (store : List PriceRow) (r : PriceRow) : List PriceRow :=
  (store.filter (fun x => !(x.symbol == r.symbol && x.date == r.date))) ++ [r]

/-- Observation used to state uniqueness and last-write-wins: the stored
rows carrying a given `(symbol, date)` key. -/
def rowsFor (store : List PriceRow) (symbol : String) (d : Int) : List PriceRow :=
  store.filter (fun r => r.symbol == symbol && r.date == d)

/-- `insert_historical_data`: iterates the data-frame rows, upserting each
into `historical_prices` and counting it, then commits.  A `None` or empty
frame inserts nothing. -/
def insert_historical_data (symbol : String) (df : Option (List FetchRow))
    (store : List PriceRow) : Nat × List PriceRow :=
  match df with
  | none => (0, store)
  | some rows =>
      rows.foldl (fun acc r => (acc.1 + 1, upsertRow acc.2 (toPriceRow symbol r))) (0, store)

/-- `get_latest_date`: `SELECT MAX(date) FROM historical_prices WHERE
symbol = ?`, `None` when the symbol has no rows. -/
def get_latest_date (symbol : String) (store : List PriceRow) : Option Int :=
  (store.filter (fun r => r.symbol == symbol)).foldl
    (fun acc r =>
      match acc with
      | none => some r.date
      | some d => some (max d r.date)) none

/-- Response of one HTTPS request to the NASDAQ charting endpoint: a JSON
payload whose `marketData` rows the fetcher turns into a frame, an HTTP
error status, or a raised exception (connection error, timeout, malformed
payload).  A 200 payload without `marketData` behaves as `ok []`. -/
inductive ProviderResponse where
  | ok (rows : List FetchRow)
  | httpError (code : Nat)
  | exn (msg : String)
deriving DecidableEq

/-- A response on which the per-symbol fetch fails (HTTP error or raised
exception), as opposed to a well-formed payload. -/
def isProviderFailure : ProviderResponse → Bool
  | .ok _ => false
  | .httpError _ => true
  | .exn _ => true

/-- `fetch_nasdaq_incremental`: performs one provider request for
`[start_date, end_date]` and returns the frame, or `None` on an HTTP
error, an exception, or an empty `marketData` — every failure is caught
inside this function and never raises to the caller. -/
def fetch_nasdaq_incremental (provider : String → Int → Int → ProviderResponse)
    (symbol : String) (start_date end_date : Int) : Option (List FetchRow) :=
  match provider symbol start_date end_date with
  | .ok rows => if rows.length > 0 then some rows else none
  | .httpError _ => none
  | .exn _ => none

/-- Observable result of `incremental_fetch_symbol`: the provider windows
requested over the network, the reported inserted count (its return
value), and the resulting `historical_prices` store. -/
structure FetchTrace where
  networkCalls : List (Int × Int)
  inserted : Nat
  store : List PriceRow
deriving DecidableEq

/-- The window-start computation at the top of `incremental_fetch_symbol`:
the full 730-day lookback when `force_full` or no cursor is stored,
otherwise `latest + 1` — or `none` for the early `return 0` taken when
`days_behind = (datetime.now() - start_date).days = today - (latest + 1)`
is `≤ 0` (the floor drops the time-of-day fraction against the
midnight-stamped `start_date`). -/
def fetchStartDate (today : Int) (symbol : String) (store : List PriceRow)
    (force_full : Bool) : Option Int :=
  if force_full then some (today - 730)
  else
    match get_latest_date symbol store with
    | some latest =>
        let sd := latest + 1
        let days_behind := today - sd
        if days_behind ≤ 0 then none else some sd
    | none => some (today - 730)

/-- `incremental_fetch_symbol`: computes the fetch window via
`fetchStartDate`, then — unless the early return fired — fetches
`[start_date, today]` from the provider and merges the frame.
(`ensure_stock_exists` touches only the `stocks` metadata table, not
`historical_prices`, and is not modelled.) -/
def incremental_fetch_symbol (provider : String → Int → Int → ProviderResponse)
    (today : Int) (symbol : String) (store : List PriceRow) (force_full : Bool) :
    FetchTrace :=
  match fetchStartDate today symbol store force_full with
  | none => { networkCalls := [], inserted := 0, store := store }
  | some sd =>
      match fetch_nasdaq_incremental provider symbol sd today with
      | some rows =>
          let r := insert_historical_data symbol (some rows) store
          { networkCalls := [(sd, today)], inserted := r.1, store := r.2 }
      | none => { networkCalls := [(sd, today)], inserted := 0, store := store }

/-- Aggregate result of `incremental_fetch_all`: total rows inserted,
symbols completed, symbols whose worker raised, and the final store. -/
structure BatchResult where
  total_inserted : Nat
  success_count : Nat
  fail_count : Nat
  store : List PriceRow
deriving DecidableEq

/-- `incremental_fetch_all`: runs `incremental_fetch_symbol` for every
symbol against the shared connection and aggregates.  `fail_count` counts
workers whose `future.result()` raised; per-symbol fetch failures are
caught inside `fetch_nasdaq_incremental` and therefore return normally
(counted as a success with `0` inserted), so in this pure embedding no
worker raises. -/
def incremental_fetch_all (provider : String → Int → Int → ProviderResponse)
    (today : Int) (symbols : List String) (store : List PriceRow)
    (force_full : Bool) : BatchResult :=
  symbols.foldl
    (fun acc symbol =>
      let t := incremental_fetch_symbol provider today symbol acc.store force_full
      { total_inserted := acc.total_inserted + t.inserted
        success_count := acc.success_count + 1
        fail_count := acc.fail_count
        store := t.store })
    { total_inserted := 0, success_count := 0, fail_count := 0, store := store }

/-- `main` of `incremental_fetch.py` in its default (incremental) mode:
reads the symbol list, runs the batch, prints the summary and returns
normally on every path, so the script's exit code — the first component —
is `0`. -/
def incremental_fetch_main (provider : String → Int → Int → ProviderResponse)
    (today : Int) (symbols : List String) (store : List PriceRow) :
    Int × BatchResult :=
  (0, incremental_fetch_all provider today symbols store false)

/-! ## Indicator Engine (`backend/scripts/process_indicators.py`)

The ~50 `talib` indicator columns are values of the external C library,
not of this repository; they are a function parameter `calcInd` applied to
the full chronological series, exactly as the script computes every column
over the whole frame before slicing `df.iloc[-1]`.  The control flow the
claims are about — the 200-row checks, numeric coercion and null
dropping, the latest-row slice, `data_age_days` and the snapshot write —
is embedded from the source. -/

/-- A row of the frame `load_historical_data` reads (`SELECT date, open,
high, low, close, volume ... ORDER BY date ASC`): nullable numeric
columns, where `none` is a SQL `NULL` (which `pd.to_numeric` leaves as
`NaN`, to be dropped by `dropna`). -/
structure RawRow where
  date : Int
  open_ : Option Rat
  high : Option Rat
  low : Option Rat
  close : Option Rat
  volume : Option Int
deriving DecidableEq

/-- A row that survives `dropna(subset=['close','high','low','open',
'volume'])`: all five numeric fields present. -/
structure ValidRow where
  date : Int
  open_ : Rat
  high : Rat
  low : Rat
  close : Rat
  volume : Int
deriving DecidableEq

/-- Projection of a stored `historical_prices` row onto the columns the
indicator query selects. -/
def toRawRow (r : PriceRow) : RawRow :=
  { date := r.date, open_ := r.open_, high := r.high, low := r.low
    close := r.close, volume := r.volume }

/-- The `ORDER BY date ASC` ordering of the indicator query. -/
def byDate (a b : RawRow) : Prop := a.date ≤ b.date

instance : DecidableRel byDate := fun a b => Int.decLe a.date b.date

instance : IsTotal RawRow byDate := ⟨fun a b => Int.le_total a.date b.date⟩

instance : IsTrans RawRow byDate := ⟨fun _ _ _ => Int.le_trans⟩

/-- `load_historical_data`: the symbol's `historical_prices` rows, ordered
by date ascending (insertion sort embeds the SQL `ORDER BY`). -/
def load_historical_data (symbol : String) (store : List PriceRow) : List RawRow :=
  List.insertionSort byDate ((store.filter (fun r => r.symbol == symbol)).map toRawRow)

/-- Numeric coercion plus `dropna`: a row is kept exactly when all five
numeric fields are present. -/
def coerceRow (r : RawRow) : Option ValidRow :=
  match r.open_, r.high, r.low, r.close, r.volume with
  | some o, some h, some l, some c, some v =>
      some { date := r.date, open_ := o, high := h, low := l, close := c, volume := v }
  | _, _, _, _, _ => none

/-- The frame after `dropna`: the valid rows, in their original order. -/
def validRows (df : List RawRow) : List ValidRow :=
  df.filterMap coerceRow

/-- The single `stock_indicators` row written for a symbol (primary key
`symbol`, so `INSERT OR REPLACE` replaces the previous snapshot
wholesale).  `α` is the type of the ~50 `talib`-derived values. -/
structure Snapshot (α : Type) where
  symbol : String
  date : Int
  open_ : Rat
  high : Rat
  low : Rat
  close : Rat
  volume : Int
  data_age_days : Int
  indicators : α
  last_calculated : String
deriving DecidableEq

/-- The log line `calculate_and_store_indicators` emits: the two
insufficient-data skips are `logging.warning` calls, the success path is
`logging.info`.  The `logging.error` branch (the exception handler) is
unreachable here because the embedded computation is total. -/
inductive IndicatorLog where
  | warnInsufficientData (nrows : Nat)
  | warnInsufficientValid
  | infoStored
deriving DecidableEq

/-- `calculate_and_store_indicators`: loads the symbol's series; skips
(returning `False`, writing nothing) when the raw frame has fewer than 200
rows or, after coercion and null-dropping, fewer than 200 valid rows;
otherwise computes every indicator column over the full series (`calcInd`),
slices the latest row, computes `data_age_days = (now - latest date).days`
— with a midnight-stamped date this floor is exactly `today - date` — and
upserts the symbol's single snapshot, returning `True`. -/
def calculate_and_store_indicators {α : Type} (calcInd : List ValidRow → α)
    (today : Int) (nowIso : String) (symbol : String) (store : List PriceRow) :
    Bool × Option (Snapshot α) × IndicatorLog :=
  let df := load_historical_data symbol store
  if df.length < 200 then
    (false, none, .warnInsufficientData df.length)
  else
    let valid := validRows df
    if valid.length < 200 then
      (false, none, .warnInsufficientValid)
    else
      match valid.getLast? with
      | none => (false, none, .warnInsufficientValid)
      | some latest =>
          let data_age_days := today - latest.date
          (true,
           some { symbol := symbol
                  date := latest.date
                  open_ := latest.open_
                  high := latest.high
                  low := latest.low
                  close := latest.close
                  volume := latest.volume
                  data_age_days := data_age_days
                  indicators := calcInd valid
                  last_calculated := nowIso },
           .infoStored)

/-- `process_all_indicators`: one worker (with its own connection onto the
same store) per symbol; a `False` return increments `fail_count`, a `True`
return increments `success_count`. -/
def process_all_indicators {α : Type} (calcInd : List ValidRow → α)
    (today : Int) (nowIso : String) (store : List PriceRow)
    (symbols : List String) : Nat × Nat :=
  symbols.foldl
    (fun acc symbol =>
      if (calculate_and_store_indicators calcInd today nowIso symbol store).1 then
        (acc.1 + 1, acc.2)
      else
        (acc.1, acc.2 + 1))
    (0, 0)

/-- `main` of `process_indicators.py`: runs the batch, prints the
success/fail summary and returns normally on every path, so the script's
exit code — the first component — is `0` regardless of how many symbols
were skipped. -/
def process_indicators_main {α : Type} (calcInd : List ValidRow → α)
    (today : Int) (nowIso : String) (store : List PriceRow)
    (symbols : List String) : Int × Nat × Nat :=
  (0, process_all_indicators calcInd today nowIso store symbols)

/-! ## Concrete states and inputs used by witnesses and counterexamples -/

/-- The persisted state right after an accepted `start_refresh` on a fresh
idle state. -/
def demoFetchingState : JobState :=
  (start_refresh "2026-01-02T08:00:00" initialIdleState).2

/-- The persisted state after a full successful run (so
`last_successful_refresh` holds a timestamp). -/
def demoCompletedState : JobState :=
  (run_refresh_job "2026-01-01T10:00:00" (.completedWith 0 "") (.completedWith 0 "")
    (start_refresh "2026-01-01T09:00:00" initialIdleState).2).1

/-- The persisted state after a run whose fetch stage exited non-zero. -/
def demoFailedState : JobState :=
  (run_refresh_job "2026-01-01T10:00:00" (.completedWith 1 "boom") (.completedWith 0 "")
    (start_refresh "2026-01-01T09:00:00" initialIdleState).2).1

/-- A provider for which every request raises (the market-data source is
unreachable). -/
def unreachableProvider : String → Int → Int → ProviderResponse :=
  fun _ _ _ => .exn "ConnectionError: provider unreachable"

/-- A provider that answers every window with one fresh row dated at the
window start, to show a skipped window is skipped even though upstream
data exists. -/
def freshDataProvider : String → Int → Int → ProviderResponse :=
  fun _ start _ =>
    .ok [{ date := start, open_ := 10, high := 11, low := 9, close := 10, volume := 500 }]

/-- A one-row store for symbol AAA whose cursor (max stored date) is day
99. -/
def demoCursorStore : List PriceRow :=
  [toPriceRow "AAA" { date := 99, open_ := 1, high := 2, low := 1, close := 2, volume := 100 }]

/-- A small data frame with two rows on the same date, to exercise
last-write-wins. -/
def demoFrame : List FetchRow :=
  [{ date := 99, open_ := 1, high := 2, low := 1, close := 2, volume := 100 },
   { date := 100, open_ := 3, high := 4, low := 3, close := 4, volume := 200 },
   { date := 100, open_ := 5, high := 6, low := 5, close := 6, volume := 300 }]

/-- A store with a single row for symbol BBB: far fewer than 200 rows. -/
def demoShortStore : List PriceRow :=
  [toPriceRow "BBB" { date := 50, open_ := 1, high := 2, low := 1, close := 2, volume := 100 }]

/-- A store holding 200 rows for symbol CCC on days 0..199. -/
def demoBigStore : List PriceRow :=
  (List.range 200).map (fun i =>
    toPriceRow "CCC" { date := (i : Int), open_ := 1, high := 2, low := 1, close := 2, volume := 3 })

/-- The snapshot the indicator engine stores for CCC from `demoBigStore`
when today is day 300. -/
def demoSnap : Snapshot Unit :=
  { symbol := "CCC", date := 199, open_ := 1, high := 2, low := 1, close := 2, volume := 3
    data_age_days := 101, indicators := (), last_calculated := "2026-01-02T08:03:00" }

/-! ## Theorems -/

/-- C1: for every persisted JobState whose status is `fetching` or
`processing`, `start()` returns a failure result whose message says a
refresh is already running, and the persisted JobState is exactly what it
was before the call. -/
theorem start_refresh_rejected_while_running (now : String) (s : JobState)
    (h : s.status = "fetching" ∨ s.status = "processing") :
    (start_refresh now s).1.success = false ∧
    (start_refresh now s).1.message = "A refresh job is already running" ∧
    (start_refresh now s).2 = s := by
  have hr : isRunningStatus s.status = true := by
    rcases h with h | h <;> rw [h] <;> decide
  simp [start_refresh, hr]

/-- Witness for C1 at a concrete fetching state. -/
theorem start_refresh_rejected_while_running_witness :
    (demoFetchingState.status = "fetching" ∨ demoFetchingState.status = "processing") ∧
    (start_refresh "2026-01-02T08:01:00" demoFetchingState).1.success = false ∧
    (start_refresh "2026-01-02T08:01:00" demoFetchingState).2 = demoFetchingState := by
  have h : demoFetchingState.status = "fetching" ∨ demoFetchingState.status = "processing" :=
    Or.inl rfl
  have := start_refresh_rejected_while_running "2026-01-02T08:01:00" demoFetchingState h
  exact ⟨h, this.1, this.2.2⟩

/-- C2 counterexample: the persisted status is `failed` and no `reset()`
has happened, yet `start()` is accepted. -/
theorem start_refresh_accepts_failed_without_reset :
    demoFailedState.status = "failed" ∧
    (start_refresh "2026-01-02T08:00:00" demoFailedState).1.success = true := by
  constructor <;> rfl

/-- C2 amended: a `failed` status does not block `start()`: `start()` is
rejected only while the status is `fetching` or `processing`, so after a
failed run the next `start()` is accepted immediately, with no `reset()`
required. -/
theorem start_refresh_from_failed_is_accepted (now : String) (s : JobState)
    (h : s.status = "failed") :
    (start_refresh now s).1.success = true ∧
    (start_refresh now s).2.status = "fetching" := by
  have hr : isRunningStatus s.status = false := by rw [h]; decide
  simp [start_refresh, hr]

/-- Witness for the amended C2 at a concrete failed state. -/
theorem start_refresh_from_failed_is_accepted_witness :
    demoFailedState.status = "failed" ∧
    (start_refresh "2026-01-02T08:00:01" demoFailedState).1.success = true :=
  ⟨rfl, (start_refresh_from_failed_is_accepted "2026-01-02T08:00:01" demoFailedState rfl).1⟩

/-- C3: whenever the sync (fetch) stage exits non-zero or hits its hard
15-minute timeout, the orchestrator persists status `failed` with the
captured error text in `JobState.error`, and the indicator (process) stage
is never started in that run. -/
theorem sync_failure_marks_failed_and_skips_indicator (now : String)
    (fetch process : StageOutcome) (s : JobState)
    (h : stageFailed fetch = true) :
    (run_refresh_job now fetch process s).1.status = "failed" ∧
    (run_refresh_job now fetch process s).2 = false ∧
    (fetch = .timedOut →
      (run_refresh_job now fetch process s).1.error =
        some "Job timed out during fetching phase") ∧
    (∀ rc stderr, fetch = .completedWith rc stderr →
      (run_refresh_job now fetch process s).1.error =
        some ("Fetch failed: " ++ stderr)) := by
  cases fetch with
  | timedOut =>
      refine ⟨rfl, rfl, ?_, ?_⟩
      · intro _
        rfl
      · intro rc stderr hco
        exact StageOutcome.noConfusion hco
  | completedWith rc stderr =>
      have hrc : (rc != 0) = true := h
      refine ⟨?_, ?_, ?_, ?_⟩
      · simp [run_refresh_job, hrc, mark_failed]
      · simp [run_refresh_job, hrc]
      · intro hto
        exact StageOutcome.noConfusion hto
      · intro rc2 stderr2 hco
        cases hco
        simp [run_refresh_job, hrc, mark_failed]

/-- Witness for C3: a fetch stage that exited with code 1. -/
theorem sync_failure_marks_failed_and_skips_indicator_witness :
    stageFailed (.completedWith 1 "Traceback") = true ∧
    (run_refresh_job "2026-01-02T08:20:00" (.completedWith 1 "Traceback")
      (.completedWith 0 "") demoFetchingState).1.status = "failed" ∧
    (run_refresh_job "2026-01-02T08:20:00" (.completedWith 1 "Traceback")
      (.completedWith 0 "") demoFetchingState).2 = false := by
  have h : stageFailed (.completedWith 1 "Traceback") = true := by decide
  have := sync_failure_marks_failed_and_skips_indicator "2026-01-02T08:20:00"
    (.completedWith 1 "Traceback") (.completedWith 0 "") demoFetchingState h
  exact ⟨h, this.1, this.2.1⟩

/-- C8 (code bug): `reset_to_idle` enters `with self.lock:` and then calls
`is_running`, which re-acquires the same non-reentrant `threading.Lock`;
the call therefore deadlocks and never returns — for a `fetching` state it
does not return the failure result the spec describes (and from any other
state it never resets).  The `start_refresh` source even carries the
comment that it checks the status inline "to avoid nested lock". -/
theorem reset_to_idle_deadlocks :
    isRunningStatus demoFetchingState.status = true ∧
    reset_to_idle demoFetchingState = none ∧
    ∀ s : JobState, reset_to_idle s = none := by
  exact ⟨rfl, rfl, fun s => rfl⟩

/-- C10: an accepted `start()` persists `last_successful_refresh = null`,
discarding the previously stored timestamp; a run that then fails leaves
it `null`, and no later transition can restore the old value (the only
transition that writes a timestamp is the `completed` branch, which writes
the new run's time), so the prior successful-refresh timestamp is
permanently lost. -/
theorem start_discards_last_successful_refresh (now now2 t : String) (s : JobState)
    (hidle : isRunningStatus s.status = false)
    (_hlsr : s.last_successful_refresh = some t) :
    (start_refresh now s).1.success = true ∧
    (start_refresh now s).2.last_successful_refresh = none ∧
    (∀ fetch process, stageFailed fetch = true →
      (run_refresh_job now2 fetch process
        (start_refresh now s).2).1.last_successful_refresh = none) ∧
    (∀ fetch process,
      (run_refresh_job now2 fetch process
        (start_refresh now s).2).1.last_successful_refresh = none ∨
      (run_refresh_job now2 fetch process
        (start_refresh now s).2).1.last_successful_refresh = some now2) := by
  have hstart : (start_refresh now s).2.last_successful_refresh = none := by
    simp [start_refresh, hidle]
  refine ⟨by simp [start_refresh, hidle], hstart, ?_, ?_⟩
  · intro fetch process hf
    cases fetch with
    | timedOut => simpa [run_refresh_job, mark_failed, update_progress] using hstart
    | completedWith rc stderr =>
        have hrc : (rc != 0) = true := hf
        simpa [run_refresh_job, hrc, mark_failed, update_progress] using hstart
  · intro fetch process
    cases fetch with
    | timedOut =>
        exact Or.inl (by simpa [run_refresh_job, mark_failed, update_progress] using hstart)
    | completedWith rc stderr =>
        by_cases hrc : (rc != 0) = true
        · exact Or.inl (by simpa [run_refresh_job, hrc, mark_failed, update_progress] using hstart)
        · cases process with
          | timedOut =>
              refine Or.inl ?_
              simpa [run_refresh_job, hrc, mark_failed, update_progress] using hstart
          | completedWith rc2 stderr2 =>
              by_cases hrc2 : (rc2 != 0) = true
              · refine Or.inl ?_
                simpa [run_refresh_job, hrc, hrc2, mark_failed, update_progress] using hstart
              · refine Or.inr ?_
                simp [run_refresh_job, hrc, hrc2]

/-- A failing provider response makes `fetch_nasdaq_incremental` return
`None` (the failure is caught inside the function). -/
theorem fetch_nasdaq_incremental_none_of_failure
    (provider : String → Int → Int → ProviderResponse) (symbol : String)
    (a b : Int) (h : isProviderFailure (provider symbol a b) = true) :
    fetch_nasdaq_incremental provider symbol a b = none := by
  unfold fetch_nasdaq_incremental
  cases hp : provider symbol a b with
  | ok rows => rw [hp] at h; simp [isProviderFailure] at h
  | httpError c => rfl
  | exn m => rfl

/-- Unfolding equation: when the early return fires, the per-symbol fetch
makes no network call and returns the store untouched. -/
theorem incremental_fetch_symbol_skip
    (provider : String → Int → Int → ProviderResponse) (today : Int)
    (symbol : String) (store : List PriceRow) (force_full : Bool)
    (h : fetchStartDate today symbol store force_full = none) :
    incremental_fetch_symbol provider today symbol store force_full =
      { networkCalls := [], inserted := 0, store := store } := by
  unfold incremental_fetch_symbol
  rw [h]

/-- Unfolding equation: with window start `sd`, the per-symbol fetch makes
one provider request for `[sd, today]` and merges whatever comes back. -/
theorem incremental_fetch_symbol_go
    (provider : String → Int → Int → ProviderResponse) (today : Int)
    (symbol : String) (store : List PriceRow) (force_full : Bool) (sd : Int)
    (h : fetchStartDate today symbol store force_full = some sd) :
    incremental_fetch_symbol provider today symbol store force_full =
      match fetch_nasdaq_incremental provider symbol sd today with
      | some rows =>
          { networkCalls := [(sd, today)]
            inserted := (insert_historical_data symbol (some rows) store).1
            store := (insert_historical_data symbol (some rows) store).2 }
      | none => { networkCalls := [(sd, today)], inserted := 0, store := store } := by
  unfold incremental_fetch_symbol
  rw [h]

/-- When every request to the provider fails, a per-symbol fetch inserts
nothing and leaves the store unchanged. -/
theorem incremental_fetch_symbol_provider_down
    (provider : String → Int → Int → ProviderResponse) (today : Int)
    (symbol : String) (store : List PriceRow) (force_full : Bool)
    (hfail : ∀ sym a b, isProviderFailure (provider sym a b) = true) :
    (incremental_fetch_symbol provider today symbol store force_full).inserted = 0 ∧
    (incremental_fetch_symbol provider today symbol store force_full).store = store := by
  cases hsd : fetchStartDate today symbol store force_full with
  | none =>
      rw [incremental_fetch_symbol_skip provider today symbol store force_full hsd]
      exact ⟨rfl, rfl⟩
  | some sd =>
      rw [incremental_fetch_symbol_go provider today symbol store force_full sd hsd,
        fetch_nasdaq_incremental_none_of_failure provider symbol sd today
          (hfail symbol sd today)]
      exact ⟨rfl, rfl⟩

/-- Accumulator form of the batch result when every provider request
fails: every symbol is still counted as a success (its failure was caught
and reported as zero rows), nothing is inserted, and no worker raises. -/
theorem incremental_fetch_all_provider_down_aux
    (provider : String → Int → Int → ProviderResponse) (today : Int)
    (force_full : Bool)
    (hfail : ∀ sym a b, isProviderFailure (provider sym a b) = true) :
    ∀ (symbols : List String) (acc : BatchResult),
      symbols.foldl
        (fun acc symbol =>
          let t := incremental_fetch_symbol provider today symbol acc.store force_full
          { total_inserted := acc.total_inserted + t.inserted
            success_count := acc.success_count + 1
            fail_count := acc.fail_count
            store := t.store }) acc =
      { total_inserted := acc.total_inserted
        success_count := acc.success_count + symbols.length
        fail_count := acc.fail_count
        store := acc.store } := by
  intro symbols
  induction symbols with
  | nil => intro acc; simp
  | cons sym rest ih =>
      intro acc
      rw [List.foldl_cons, ih]
      obtain ⟨h0, hst⟩ :=
        incremental_fetch_symbol_provider_down provider today sym acc.store force_full hfail
      simp [h0, hst, List.length_cons]
      omega

/-- C4 amended: when the per-symbol fetch fails for every symbol in the
batch (for example the provider is unreachable for all requests), every
failure is caught inside the sync script: the batch reports zero inserted
rows and zero worker failures, the store is unchanged, the script still
exits with code 0, and the orchestrator therefore proceeds to the
indicator stage — the run does not transition to `failed` on account of
the fetch failures. -/
theorem all_fetch_failures_sync_stage_still_succeeds
    (provider : String → Int → Int → ProviderResponse) (today : Int)
    (symbols : List String) (store : List PriceRow)
    (hfail : ∀ sym a b, isProviderFailure (provider sym a b) = true) :
    (incremental_fetch_main provider today symbols store).1 = 0 ∧
    (incremental_fetch_main provider today symbols store).2.total_inserted = 0 ∧
    (incremental_fetch_main provider today symbols store).2.fail_count = 0 ∧
    (incremental_fetch_main provider today symbols store).2.success_count = symbols.length ∧
    (incremental_fetch_main provider today symbols store).2.store = store ∧
    (∀ now s processOutcome,
      (run_refresh_job now
        (.completedWith (incremental_fetch_main provider today symbols store).1 "")
        processOutcome s).2 = true) := by
  have hbatch :
      incremental_fetch_all provider today symbols store false =
      { total_inserted := 0, success_count := symbols.length
        fail_count := 0, store := store } := by
    unfold incremental_fetch_all
    rw [incremental_fetch_all_provider_down_aux provider today false hfail symbols]
    simp
  refine ⟨rfl, ?_, ?_, ?_, ?_, ?_⟩
  · show (incremental_fetch_all provider today symbols store false).total_inserted = 0
    rw [hbatch]
  · show (incremental_fetch_all provider today symbols store false).fail_count = 0
    rw [hbatch]
  · show (incremental_fetch_all provider today symbols store false).success_count = symbols.length
    rw [hbatch]
  · show (incremental_fetch_all provider today symbols store false).store = store
    rw [hbatch]
  · intro now s processOutcome
    have h0 : (incremental_fetch_main provider today symbols store).1 = (0 : Int) := rfl
    rw [h0]
    cases processOutcome with
    | timedOut => rfl
    | completedWith rc2 st2 =>
        rcases Bool.eq_false_or_eq_true (rc2 != 0) with h2 | h2 <;>
          simp [run_refresh_job, h2]

/-- C4 counterexample: with the provider unreachable for every request the
per-symbol fetch fails (returns `None`), yet the sync script exits with
code 0 and the orchestrator — fed exactly that exit code — runs the
indicator stage and finishes `completed`, not `failed`. -/
theorem all_fetch_failures_still_run_indicators :
    fetch_nasdaq_incremental unreachableProvider "AAA" (100 - 730) 100 = none ∧
    (incremental_fetch_main unreachableProvider 100 ["AAA"] []).1 = 0 ∧
    (run_refresh_job "2026-01-02T08:05:00"
      (.completedWith (incremental_fetch_main unreachableProvider 100 ["AAA"] []).1 "")
      (.completedWith 0 "") demoFetchingState).2 = true ∧
    (run_refresh_job "2026-01-02T08:05:00"
      (.completedWith (incremental_fetch_main unreachableProvider 100 ["AAA"] []).1 "")
      (.completedWith 0 "") demoFetchingState).1.status = "completed" := by
  exact ⟨rfl, rfl, rfl, rfl⟩

/-- Witness for the amended C4, at the unreachable provider and a one
symbol batch. -/
theorem all_fetch_failures_sync_stage_still_succeeds_witness :
    (∀ sym a b, isProviderFailure (unreachableProvider sym a b) = true) ∧
    (incremental_fetch_main unreachableProvider 100 ["AAA"] demoCursorStore).1 = 0 ∧
    (incremental_fetch_main unreachableProvider 100 ["AAA"] demoCursorStore).2.total_inserted = 0 ∧
    (incremental_fetch_main unreachableProvider 100 ["AAA"] demoCursorStore).2.store = demoCursorStore := by
  have h : ∀ sym a b, isProviderFailure (unreachableProvider sym a b) = true :=
    fun _ _ _ => rfl
  have := all_fetch_failures_sync_stage_still_succeeds unreachableProvider 100 ["AAA"]
    demoCursorStore h
  exact ⟨h, this.1, this.2.1, this.2.2.2.2.1⟩

/-- Equation for the window start when a cursor is present and
`force_full` is off. -/
theorem fetchStartDate_of_cursor (today cursor : Int) (symbol : String)
    (store : List PriceRow) (hcur : get_latest_date symbol store = some cursor) :
    fetchStartDate today symbol store false =
      if today - (cursor + 1) ≤ 0 then none else some (cursor + 1) := by
  unfold fetchStartDate
  rw [hcur]
  simp

/-- C5 amended: for a symbol with a stored cursor, the engine requests
the window `[cursor + 1, today]` only when `cursor + 1 < today`; whenever
`today ≤ cursor + 1` — which covers the genuinely empty window
(`cursor ≥ today`) but also the non-empty one-day window `[today, today]`
(`cursor = today - 1`) — it performs zero network calls, reports zero
inserted rows, and leaves the stored rows unchanged. -/
theorem cursor_window_fetch_behavior
    (provider : String → Int → Int → ProviderResponse) (today cursor : Int)
    (symbol : String) (store : List PriceRow)
    (hcur : get_latest_date symbol store = some cursor) :
    (today ≤ cursor + 1 →
      incremental_fetch_symbol provider today symbol store false =
        { networkCalls := [], inserted := 0, store := store }) ∧
    (cursor + 1 < today →
      (incremental_fetch_symbol provider today symbol store false).networkCalls =
        [(cursor + 1, today)]) := by
  have heq := fetchStartDate_of_cursor today cursor symbol store hcur
  constructor
  · intro hle
    have hsd : fetchStartDate today symbol store false = none := by
      rw [heq, if_pos (by omega)]
    exact incremental_fetch_symbol_skip provider today symbol store false hsd
  · intro hlt
    have hsd : fetchStartDate today symbol store false = some (cursor + 1) := by
      rw [heq, if_neg (by omega)]
    rw [incremental_fetch_symbol_go provider today symbol store false (cursor + 1) hsd]
    cases hf : fetch_nasdaq_incremental provider symbol (cursor + 1) today with
    | none => rfl
    | some rows => rfl

/-- C5 counterexample: symbol AAA's cursor is day 99 and today is day 100,
so the claimed window `[100, 100]` is non-empty and the provider has a row
for it, yet the engine performs zero network calls and inserts zero
rows. -/
theorem one_day_window_skipped_despite_new_data :
    get_latest_date "AAA" demoCursorStore = some 99 ∧
    (99 : Int) + 1 ≤ 100 ∧
    freshDataProvider "AAA" 100 100 =
      .ok [{ date := 100, open_ := 10, high := 11, low := 9, close := 10, volume := 500 }] ∧
    (incremental_fetch_symbol freshDataProvider 100 "AAA" demoCursorStore false).networkCalls = [] ∧
    (incremental_fetch_symbol freshDataProvider 100 "AAA" demoCursorStore false).inserted = 0 ∧
    (incremental_fetch_symbol freshDataProvider 100 "AAA" demoCursorStore false).store =
      demoCursorStore := by
  refine ⟨rfl, by omega, rfl, ?_, ?_, ?_⟩ <;> rfl

/-- Witness for the amended C5: the same cursor store, on both sides of
the boundary (today 100 skips; today 102 requests `[100, 102]`). -/
theorem cursor_window_fetch_behavior_witness :
    get_latest_date "AAA" demoCursorStore = some 99 ∧
    incremental_fetch_symbol freshDataProvider 100 "AAA" demoCursorStore false =
      { networkCalls := [], inserted := 0, store := demoCursorStore } ∧
    (incremental_fetch_symbol freshDataProvider 102 "AAA" demoCursorStore false).networkCalls =
      [(100, 102)] := by
  have hcur : get_latest_date "AAA" demoCursorStore = some 99 := rfl
  refine ⟨hcur, ?_, ?_⟩
  · exact (cursor_window_fetch_behavior freshDataProvider 100 99 "AAA"
      demoCursorStore hcur).1 (by omega)
  · exact (cursor_window_fetch_behavior freshDataProvider 102 99 "AAA"
      demoCursorStore hcur).2 (by omega)

/-- Upserting one row preserves key-uniqueness of the store. -/
theorem noDupKeys_upsert (store : List PriceRow) (r : PriceRow)
    (h : NoDupKeys store) : NoDupKeys (upsertRow store r) := by
  unfold NoDupKeys upsertRow
  rw [List.map_append, List.nodup_append]
  refine ⟨List.Sublist.nodup (List.Sublist.map keyOf (List.filter_sublist store)) h,
    List.nodup_singleton _, ?_⟩
  intro k hk hk2
  have hkr : k = keyOf r := by simpa using hk2
  subst hkr
  obtain ⟨x, hx, hxk⟩ := List.mem_map.mp hk
  obtain ⟨hxs, hxp⟩ := List.mem_filter.mp hx
  have h1 : x.symbol = r.symbol := congrArg Prod.fst hxk
  have h2 : x.date = r.date := congrArg Prod.snd hxk
  rw [h1, h2] at hxp
  simp at hxp

/-- The counting accumulator threaded by `insert_historical_data` does not
affect the final store: its second component is a plain fold of upserts. -/
theorem insert_foldl_store (symbol : String) :
    ∀ (df : List FetchRow) (n : Nat) (store : List PriceRow),
      (df.foldl (fun acc r => (acc.1 + 1, upsertRow acc.2 (toPriceRow symbol r)))
        (n, store)).2 =
      df.foldl (fun st r => upsertRow st (toPriceRow symbol r)) store := by
  intro df
  induction df with
  | nil => intro n store; rfl
  | cons r rest ih =>
      intro n store
      rw [List.foldl_cons, List.foldl_cons]
      exact ih (n + 1) (upsertRow store (toPriceRow symbol r))

/-- Key-uniqueness is preserved by merging a whole frame. -/
theorem noDupKeys_mergeFold (symbol : String) :
    ∀ (df : List FetchRow) (store : List PriceRow), NoDupKeys store →
      NoDupKeys (df.foldl (fun st r => upsertRow st (toPriceRow symbol r)) store) := by
  intro df
  induction df with
  | nil => intro store h; exact h
  | cons r rest ih =>
      intro store h
      rw [List.foldl_cons]
      exact ih (upsertRow store (toPriceRow symbol r))
        (noDupKeys_upsert store (toPriceRow symbol r) h)

/-- Effect of one upsert on the rows at a key: the key it carries now maps
to exactly the new row; every other key is untouched. -/
theorem rowsFor_upsert (store : List PriceRow) (r : PriceRow) (symbol : String) (d : Int) :
    rowsFor (upsertRow store r) symbol d =
      if r.symbol = symbol ∧ r.date = d then [r] else rowsFor store symbol d := by
  unfold rowsFor upsertRow
  rw [List.filter_append, List.filter_filter]
  by_cases hk : r.symbol = symbol ∧ r.date = d
  · obtain ⟨hs, hd⟩ := hk
    subst hs; subst hd
    rw [if_pos ⟨rfl, rfl⟩]
    have h1 : store.filter
        (fun a => (a.symbol == r.symbol && a.date == r.date) &&
          !(a.symbol == r.symbol && a.date == r.date)) = [] := by
      apply List.filter_eq_nil_iff.mpr
      intro a _
      simp
    rw [h1]
    simp
  · rw [if_neg hk]
    have h2 : List.filter (fun a => a.symbol == symbol && a.date == d) [r] = [] := by
      apply List.filter_eq_nil_iff.mpr
      intro a ha
      simp only [List.mem_singleton] at ha
      subst ha
      simp only [Bool.and_eq_true, beq_iff_eq]
      exact hk
    have h3 : store.filter
        (fun a => (a.symbol == symbol && a.date == d) &&
          !(a.symbol == r.symbol && a.date == r.date)) =
        store.filter (fun a => a.symbol == symbol && a.date == d) := by
      apply List.filter_congr
      intro a _
      by_cases hq : (a.symbol == symbol && a.date == d) = true
      · rw [hq, Bool.true_and, Bool.not_eq_true']
        rw [Bool.eq_false_iff]
        intro hpr
        rw [Bool.and_eq_true, beq_iff_eq, beq_iff_eq] at hq hpr
        exact hk ⟨hpr.1.symm.trans hq.1, hpr.2.symm.trans hq.2⟩
      · have hq' : (a.symbol == symbol && a.date == d) = false := Bool.eq_false_iff.mpr hq
        rw [hq', Bool.false_and]
    rw [h2, h3, List.append_nil]

/-- Last-write-wins across a merged frame: after the fold, the rows at key
`(symbol, d)` are exactly the last frame row dated `d` when the frame has
one, otherwise whatever the store already held at that key. -/
theorem rowsFor_mergeFold (symbol : String) (d : Int) :
    ∀ (df : List FetchRow) (store : List PriceRow),
      rowsFor (df.foldl (fun st r => upsertRow st (toPriceRow symbol r)) store) symbol d =
        match (df.filter (fun q => q.date == d)).getLast? with
        | some q => [toPriceRow symbol q]
        | none => rowsFor store symbol d := by
  intro df
  induction df with
  | nil => intro store; rfl
  | cons r rest ih =>
      intro store
      rw [List.foldl_cons, ih (upsertRow store (toPriceRow symbol r)), List.filter_cons]
      by_cases hd : (r.date == d) = true
      · have hd' : r.date = d := by simpa using hd
        rw [if_pos hd]
        cases hl : (rest.filter (fun q => q.date == d)).getLast? with
        | some r2 =>
            have hne : rest.filter (fun q => q.date == d) ≠ [] := by
              intro hnil
              rw [hnil] at hl
              simp at hl
            obtain ⟨b, t, hbt⟩ := List.exists_cons_of_ne_nil hne
            have hcons : (r :: rest.filter (fun q => q.date == d)).getLast? = some r2 := by
              rw [hbt] at hl ⊢
              rw [List.getLast?_cons_cons]
              exact hl
            rw [hcons]
        | none =>
            have hnil : rest.filter (fun q => q.date == d) = [] :=
              List.getLast?_eq_none_iff.mp hl
            rw [hnil, List.getLast?_singleton, rowsFor_upsert, if_pos ⟨rfl, hd'⟩]
      · have hd2 : ¬(r.date = d) := by simpa using hd
        rw [if_neg hd]
        cases hl : (rest.filter (fun q => q.date == d)).getLast? with
        | some r2 => rfl
        | none =>
            rw [rowsFor_upsert, if_neg (fun hc => hd2 hc.2)]

/-- C6: after merging any frame into a key-unique Price Store, the store
is still key-unique — it never holds two rows with the same
`(symbol, date)` — and each incoming row is upserted by that key with
last-write-wins: the stored row at a date covered by the frame is exactly
the frame's last row for that date (replacing, not duplicating, any
existing row), and keys the frame does not cover are untouched. -/
theorem price_store_unique_and_last_write_wins (symbol : String) (df : List FetchRow)
    (store : List PriceRow) (h : NoDupKeys store) :
    NoDupKeys (insert_historical_data symbol (some df) store).2 ∧
    ∀ d : Int,
      rowsFor (insert_historical_data symbol (some df) store).2 symbol d =
        match (df.filter (fun q => q.date == d)).getLast? with
        | some q => [toPriceRow symbol q]
        | none => rowsFor store symbol d := by
  have hstore : (insert_historical_data symbol (some df) store).2 =
      df.foldl (fun st r => upsertRow st (toPriceRow symbol r)) store := by
    unfold insert_historical_data
    exact insert_foldl_store symbol df 0 store
  rw [hstore]
  exact ⟨noDupKeys_mergeFold symbol df store h,
    fun d => rowsFor_mergeFold symbol d df store⟩

/-- Witness for C6: merging a frame with two rows on day 100 over a
one-row store keeps the store key-unique and leaves exactly the frame's
later day-100 row in place. -/
theorem price_store_unique_and_last_write_wins_witness :
    NoDupKeys demoCursorStore ∧
    NoDupKeys (insert_historical_data "AAA" (some demoFrame) demoCursorStore).2 ∧
    rowsFor (insert_historical_data "AAA" (some demoFrame) demoCursorStore).2 "AAA" 100 =
      [toPriceRow "AAA"
        { date := 100, open_ := 5, high := 6, low := 5, close := 6, volume := 300 }] := by
  have h : NoDupKeys demoCursorStore := by decide
  have hmain := price_store_unique_and_last_write_wins "AAA" demoFrame demoCursorStore h
  refine ⟨h, hmain.1, ?_⟩
  rw [hmain.2 100]
  rfl

/-- Branch equation: fewer than 200 raw rows means an immediate skip. -/
theorem calc_skip_raw {α : Type} (calcInd : List ValidRow → α) (today : Int)
    (nowIso symbol : String) (store : List PriceRow)
    (h : (load_historical_data symbol store).length < 200) :
    calculate_and_store_indicators calcInd today nowIso symbol store =
      (false, none, .warnInsufficientData (load_historical_data symbol store).length) := by
  simp only [calculate_and_store_indicators]
  rw [if_pos h]

/-- Branch equation: 200 raw rows but fewer than 200 valid ones after
coercion and null-dropping also skips. -/
theorem calc_skip_valid {α : Type} (calcInd : List ValidRow → α) (today : Int)
    (nowIso symbol : String) (store : List PriceRow)
    (hraw : ¬(load_historical_data symbol store).length < 200)
    (hvalid : (validRows (load_historical_data symbol store)).length < 200) :
    calculate_and_store_indicators calcInd today nowIso symbol store =
      (false, none, .warnInsufficientValid) := by
  simp only [calculate_and_store_indicators]
  rw [if_neg hraw, if_pos hvalid]

/-- Branch equation: with enough valid rows the engine stores the snapshot
built from the last valid row. -/
theorem calc_stored {α : Type} (calcInd : List ValidRow → α) (today : Int)
    (nowIso symbol : String) (store : List PriceRow)
    (hraw : ¬(load_historical_data symbol store).length < 200)
    (hvalid : ¬(validRows (load_historical_data symbol store)).length < 200)
    (latest : ValidRow)
    (hl : (validRows (load_historical_data symbol store)).getLast? = some latest) :
    calculate_and_store_indicators calcInd today nowIso symbol store =
      (true,
       some { symbol := symbol
              date := latest.date
              open_ := latest.open_
              high := latest.high
              low := latest.low
              close := latest.close
              volume := latest.volume
              data_age_days := today - latest.date
              indicators := calcInd (validRows (load_historical_data symbol store))
              last_calculated := nowIso },
       .infoStored) := by
  simp only [calculate_and_store_indicators]
  rw [if_neg hraw, if_neg hvalid, hl]

/-- C7: a symbol whose series has fewer than 200 valid rows after numeric
coercion and null-dropping gets no snapshot: the engine returns `False`
with a warning-level insufficient-data log entry (not an error), the
indicator script still exits 0, and the orchestrator — fed that exit
code — still finishes the run `completed`: the skip alone cannot fail the
run. -/
theorem insufficient_data_skips_without_failing {α : Type}
    (calcInd : List ValidRow → α) (today : Int) (nowIso symbol : String)
    (store : List PriceRow)
    (h : (validRows (load_historical_data symbol store)).length < 200) :
    (calculate_and_store_indicators calcInd today nowIso symbol store).1 = false ∧
    (calculate_and_store_indicators calcInd today nowIso symbol store).2.1 = none ∧
    ((calculate_and_store_indicators calcInd today nowIso symbol store).2.2 =
        .warnInsufficientData (load_historical_data symbol store).length ∨
      (calculate_and_store_indicators calcInd today nowIso symbol store).2.2 =
        .warnInsufficientValid) ∧
    (∀ symbols, (process_indicators_main calcInd today nowIso store symbols).1 = 0) ∧
    (∀ now s,
      (run_refresh_job now (.completedWith 0 "")
        (.completedWith (process_indicators_main calcInd today nowIso store [symbol]).1 "")
        s).1.status = "completed") := by
  by_cases hraw : (load_historical_data symbol store).length < 200
  · rw [calc_skip_raw calcInd today nowIso symbol store hraw]
    exact ⟨rfl, rfl, Or.inl rfl, fun _ => rfl, fun _ _ => rfl⟩
  · rw [calc_skip_valid calcInd today nowIso symbol store hraw h]
    exact ⟨rfl, rfl, Or.inr rfl, fun _ => rfl, fun _ _ => rfl⟩

/-- Witness for C7: symbol BBB has a single stored row. -/
theorem insufficient_data_skips_without_failing_witness :
    (validRows (load_historical_data "BBB" demoShortStore)).length < 200 ∧
    (calculate_and_store_indicators (fun _ => (0 : Nat)) 300 "2026-01-02T08:03:00"
      "BBB" demoShortStore).1 = false ∧
    (calculate_and_store_indicators (fun _ => (0 : Nat)) 300 "2026-01-02T08:03:00"
      "BBB" demoShortStore).2.1 = none := by
  have h : (validRows (load_historical_data "BBB" demoShortStore)).length < 200 := by decide
  have := insufficient_data_skips_without_failing (fun _ => (0 : Nat)) 300
    "2026-01-02T08:03:00" "BBB" demoShortStore h
  exact ⟨h, this.1, this.2.1⟩

/-- A valid row keeps the date of the raw row it came from. -/
theorem coerceRow_date {r : RawRow} {v : ValidRow} (h : coerceRow r = some v) :
    v.date = r.date := by
  unfold coerceRow at h
  rcases r with ⟨d, o, hi, lo, c, vol⟩
  cases o <;> cases hi <;> cases lo <;> cases c <;> cases vol <;> simp_all
  rw [← h]

/-- Null-dropping preserves the date ordering of the loaded frame. -/
theorem validRows_pairwise {df : List RawRow} (h : df.Pairwise byDate) :
    (validRows df).Pairwise (fun a b : ValidRow => a.date ≤ b.date) := by
  unfold validRows
  refine List.Pairwise.filterMap coerceRow ?_ h
  intro a a' hab b hb b' hb'
  have hb1 : coerceRow a = some b := hb
  have hb2 : coerceRow a' = some b' := hb'
  rw [coerceRow_date hb1, coerceRow_date hb2]
  exact hab

/-- In a date-sorted list the last element carries the maximal date. -/
theorem pairwise_date_getLast :
    ∀ {l : List ValidRow}, l.Pairwise (fun a b : ValidRow => a.date ≤ b.date) →
      ∀ {x : ValidRow}, l.getLast? = some x → x ∈ l ∧ ∀ y ∈ l, y.date ≤ x.date := by
  intro l
  induction l with
  | nil =>
      intro _ x hx
      simp at hx
  | cons a t ih =>
      intro hp x hx
      obtain ⟨ha, ht⟩ := List.pairwise_cons.mp hp
      cases t with
      | nil =>
          simp at hx
          subst hx
          refine ⟨List.mem_singleton_self a, ?_⟩
          intro y hy
          simp at hy
          subst hy
          exact le_refl _
      | cons b t2 =>
          rw [List.getLast?_cons_cons] at hx
          obtain ⟨hxmem, hmax⟩ := ih ht hx
          refine ⟨List.mem_cons_of_mem a hxmem, ?_⟩
          intro y hy
          rcases List.mem_cons.mp hy with rfl | hy2
          · exact ha x hxmem
          · exact hmax y hy2

/-- The loaded frame is date-sorted (the `ORDER BY date ASC`). -/
theorem load_historical_data_sorted (symbol : String) (store : List PriceRow) :
    (load_historical_data symbol store).Pairwise byDate :=
  List.sorted_insertionSort byDate _

/-- C9: whenever the indicator engine stores a snapshot, the stored
`data_age_days` equals `today - snapshot.date` in calendar days, where
`snapshot.date` is the date of the latest valid row of that symbol's
stored series (it belongs to the series and no valid row is newer).  The
age is a function of this run's `today` alone — recomputed fresh, never
carried over from a previous run. -/
theorem snapshot_age_is_today_minus_date {α : Type} (calcInd : List ValidRow → α)
    (today : Int) (nowIso symbol : String) (store : List PriceRow)
    (snap : Snapshot α) (log : IndicatorLog)
    (h : calculate_and_store_indicators calcInd today nowIso symbol store =
      (true, some snap, log)) :
    snap.data_age_days = today - snap.date ∧
    snap.symbol = symbol ∧
    (∃ v ∈ validRows (load_historical_data symbol store), v.date = snap.date) ∧
    (∀ v ∈ validRows (load_historical_data symbol store), v.date ≤ snap.date) := by
  by_cases hraw : (load_historical_data symbol store).length < 200
  · rw [calc_skip_raw calcInd today nowIso symbol store hraw] at h
    exact absurd (congrArg Prod.fst h) (by simp)
  · by_cases hvalid : (validRows (load_historical_data symbol store)).length < 200
    · rw [calc_skip_valid calcInd today nowIso symbol store hraw hvalid] at h
      exact absurd (congrArg Prod.fst h) (by simp)
    · cases hl : (validRows (load_historical_data symbol store)).getLast? with
      | none =>
          exfalso
          have hnil := List.getLast?_eq_none_iff.mp hl
          rw [hnil] at hvalid
          simp at hvalid
      | some latest =>
          have heq := calc_stored calcInd today nowIso symbol store hraw hvalid latest hl
          have hx := heq.symm.trans h
          simp only [Prod.mk.injEq, Option.some.injEq, true_and] at hx
          obtain ⟨hsnap, -⟩ := hx
          subst hsnap
          obtain ⟨hmem, hmax⟩ :=
            pairwise_date_getLast
              (validRows_pairwise (load_historical_data_sorted symbol store)) hl
          exact ⟨rfl, rfl, ⟨latest, hmem, rfl⟩, hmax⟩

set_option maxRecDepth 100000 in
/-- Witness for C9: the 200-row store for CCC, computed on day 300, yields
the concrete snapshot dated day 199 with age 101. -/
theorem snapshot_age_is_today_minus_date_witness :
    calculate_and_store_indicators (fun _ => ()) 300 "2026-01-02T08:03:00" "CCC"
      demoBigStore = (true, some demoSnap, .infoStored) ∧
    demoSnap.data_age_days = 300 - demoSnap.date := by
  have h : calculate_and_store_indicators (fun _ => ()) 300 "2026-01-02T08:03:00" "CCC"
      demoBigStore = (true, some demoSnap, .infoStored) := by decide
  exact ⟨h, (snapshot_age_is_today_minus_date (fun _ => ()) 300 "2026-01-02T08:03:00"
    "CCC" demoBigStore demoSnap .infoStored h).1⟩

/-- Witness for C10: a completed state carrying a prior
`last_successful_refresh` timestamp. -/
theorem start_discards_last_successful_refresh_witness :
    isRunningStatus demoCompletedState.status = false ∧
    demoCompletedState.last_successful_refresh = some "2026-01-01T10:00:00" ∧
    (start_refresh "2026-01-02T08:00:00" demoCompletedState).2.last_successful_refresh = none := by
  have h1 : isRunningStatus demoCompletedState.status = false := by decide
  have h2 : demoCompletedState.last_successful_refresh = some "2026-01-01T10:00:00" := rfl
  have := start_discards_last_successful_refresh "2026-01-02T08:00:00" "2026-01-02T08:09:00"
    "2026-01-01T10:00:00" demoCompletedState h1 h2
  exact ⟨h1, h2, this.2.1⟩
